import Mathlib

/-! Avian classpath sockets: a shallow embedding of `classpath/sockets.cpp`.

The socket layer is a set of stateless functions over a caller-owned handle.
Every function performs system calls and, on failure, formats a message and
calls `throwNew`.  The embedding makes that explicit:

* the operating system is an oracle `Syscall → Outcome` (each system call,
  with its arguments, is mapped to what the OS returns for it: the integer
  result, the value `errno` / `WSAGetLastError` holds afterwards, and the
  out-parameters);
* the observable effects of a function are threaded through a `State`: the
  current `errno`, the log of system calls made, and the log of exceptions
  raised through `throwNew`.

No function of the file issues the same system call with the same arguments
twice, so an oracle that is a function of the call loses no generality.

Not modelled: the bytes moved by `send` / `recv` beyond the arguments of the
call, the `char buf[255]` bound of the message buffers (the longest message is
well below it), and the layout of `fd_set` and `sockaddr_in` in memory.
-/

namespace Sockets

/-! ## Platform shim (`sockets.h` and the system headers) -/

/-- Compile-time platform: the constants `sockets.h` takes from the system
headers (or defines itself on non-Windows targets) and the byte order of the
host. -/
structure Platform where
  windows : Bool
  bigEndian : Bool
  INVALID_SOCKET : Int
  SOCKET_ERROR : Int
  NO_ERROR : Int
  AF_INET : Int
  SOCK_STREAM : Int
  IPPROTO_TCP : Int
  FIONBIO : Int
  MSG_PEEK : Int
  SD_RECEIVE : Int
  SD_SEND : Int
  WSAENOTCONN : Int

/-- A little-endian non-Windows target: `INVALID_SOCKET`, `SOCKET_ERROR`,
`NO_ERROR`, `SD_RECEIVE = SHUT_RD`, `SD_SEND = SHUT_WR` as `sockets.h` defines
them, the remaining constants with their Linux values (`WSAENOTCONN` standing
for `ENOTCONN`). -/
def posix : Platform where
  windows := false
  bigEndian := false
  INVALID_SOCKET := -1
  SOCKET_ERROR := -1
  NO_ERROR := 0
  AF_INET := 2
  SOCK_STREAM := 1
  IPPROTO_TCP := 6
  FIONBIO := 21537
  MSG_PEEK := 2
  SD_RECEIVE := 0
  SD_SEND := 1
  WSAENOTCONN := 107

/-- Linux `EINPROGRESS`: what a non-blocking `connect` reports while the
connection is being established. -/
def EINPROGRESS : Int := 115

/-- Linux `ECONNREFUSED`. -/
def ECONNREFUSED : Int := 111

/-- The socket handle type (`#define SOCKET int`). -/
abbrev SOCKET := Int

/-- The fields of `struct sockaddr_in` the code reads and writes.  `sin_port`
and `sin_addr` hold the 16-bit and 32-bit values as the host reads them from
the structure (so they are in network byte order when the structure is valid). -/
structure sockaddr_in where
  sin_family : Int
  sin_port : Nat
  sin_addr : Nat
deriving DecidableEq, Repr, Inhabited

/-- `sizeof(sockaddr_in)`, which is also `sizeof(sockaddr)`. -/
def sizeof_sockaddr_in : Nat := 16

/-- Conversion of a value to `uint32_t`. -/
def uint32_t (n : Nat) : Nat := n % 4294967296

/-- Conversion of a value to `uint16_t`. -/
def uint16_t (n : Nat) : Nat := n % 65536

/-- Reversal of the four bytes of a 32-bit value. -/
def bswap32 (x : Nat) : Nat :=
  (x % 256) * 16777216 + (x / 256 % 256) * 65536 + (x / 65536 % 256) * 256
    + (x / 16777216 % 256)

/-- Reversal of the two bytes of a 16-bit value. -/
def bswap16 (x : Nat) : Nat := (x % 256) * 256 + (x / 256 % 256)

/-- C library `htonl`: identity on a big-endian host, byte swap otherwise. -/
def htonl (P : Platform) (hostlong : Nat) : Nat :=
  if P.bigEndian then uint32_t hostlong else bswap32 (uint32_t hostlong)

/-- C library `ntohl`. -/
def ntohl (P : Platform) (netlong : Nat) : Nat :=
  if P.bigEndian then uint32_t netlong else bswap32 (uint32_t netlong)

/-- C library `htons`. -/
def htons (P : Platform) (hostshort : Nat) : Nat :=
  if P.bigEndian then uint16_t hostshort else bswap16 (uint16_t hostshort)

/-- C library `ntohs`. -/
def ntohs (P : Platform) (netshort : Nat) : Nat :=
  if P.bigEndian then uint16_t netshort else bswap16 (uint16_t netshort)

/-- The four bytes of a stored 32-bit value in the order they lie in memory. -/
def memBytes32 (P : Platform) (v : Nat) : Nat × Nat × Nat × Nat :=
  if P.bigEndian then
    (v / 16777216 % 256, v / 65536 % 256, v / 256 % 256, v % 256)
  else
    (v % 256, v / 256 % 256, v / 65536 % 256, v / 16777216 % 256)

/-- C library `inet_ntop(AF_INET, ...)` (and `inet_ntoa` on Windows): the four
bytes of the `in_addr`, in memory order, printed in decimal and joined by
dots. -/
def inet_ntop (P : Platform) (s_addr : Nat) : String :=
  let b := memBytes32 P s_addr
  toString b.1 ++ "." ++ toString b.2.1 ++ "." ++ toString b.2.2.1 ++ "."
    ++ toString b.2.2.2

/-- The `%d` conversion of `sprintf`. -/
def fmt_d (i : Int) : String := toString i

/-- Wrap-around of a value to a 32-bit signed `int`. -/
def wrap32 (x : Int) : Int := (x + 2147483648) % 4294967296 - 2147483648

/-! ## The operating system as an oracle -/

/-- The system calls the socket layer makes, with the arguments it passes. -/
inductive Syscall where
  | WSAStartup (version : Nat)
  | socket (af type protocol : Int)
  | ioctlsocket (s : SOCKET) (cmd : Int) (mode : Nat)
  | connect (s : SOCKET) (adr : sockaddr_in) (len : Nat)
  | select (nfds : Int) (writefd : SOCKET) (tv_sec tv_usec : Int)
  | bind (s : SOCKET) (adr : sockaddr_in) (len : Nat)
  | getsockname (s : SOCKET)
  | getpeername (s : SOCKET)
  | listen (s : SOCKET) (backlog : Int)
  | accept (s : SOCKET)
  | send (s : SOCKET) (buff : List Nat) (size : Int) (flags : Int)
  | recv (s : SOCKET) (size : Int) (flags : Int)
  | closesocket (s : SOCKET)
  | shutdown (s : SOCKET) (how : Int)
deriving DecidableEq, Repr

/-- What the OS answers to a system call: the integer result, the platform
error code (`errno`, `WSAGetLastError()`) left behind, the `sockaddr_in`
written through an address out-parameter, whether the handle is in the write
set after `select`, and the version `WSAStartup` reports. -/
structure Outcome where
  ret : Int
  err : Int
  adr : sockaddr_in
  writable : Bool
  wVersion : Nat
deriving DecidableEq, Repr, Inhabited

/-- The report `throwNew(e, category, message)` raises. -/
structure ErrorReport where
  category : String
  message : String
deriving DecidableEq, Repr

/-- Effects of the socket functions: the platform error code, the system calls
made so far with their outcomes, and the exceptions raised so far. -/
structure State where
  errno : Int
  trace : List (Syscall × Outcome)
  thrown : List ErrorReport
deriving DecidableEq, Repr

/-- The state a call starts from: nothing called, nothing raised. -/
def State.start (errno : Int) : State := ⟨errno, [], []⟩

/-- Issue a system call: ask the oracle, log the call, update `errno`. -/
def syscall (os : Syscall → Outcome) (st : State) (c : Syscall) : Outcome × State :=
  (os c, ⟨(os c).err, st.trace ++ [(c, os c)], st.thrown⟩)

/-- The function `throwNew` of `jni-util.h`: raise a Java exception of the named class. -/
def throwNew (st : State) (category message : String) : State :=
  ⟨st.errno, st.trace, st.thrown ++ [⟨category, message⟩]⟩

/-- The function `last_socket_error()`: `errno`, or `WSAGetLastError()` on Windows. -/
def last_socket_error (st : State) : Int := st.errno

/-! ## The socket operations (`sockets.cpp`) -/

/-- The `sockaddr_in` that `connect` and `bind` build: zeroed, family
`AF_INET`, address `htonl(addr)`, port `htons(port)`. -/
def make_sockaddr (P : Platform) (addr port : Nat) : sockaddr_in :=
  ⟨P.AF_INET, htons P port, htonl P addr⟩

/-- The function `init`: on Windows, start Winsock 2.2 once; elsewhere nothing.
The static flag `wsaInitialized` is passed in and returned. -/
def init (P : Platform) (os : Syscall → Outcome) (st : State) (wsaInitialized : Bool) :
    Bool × State :=
  if P.windows then
    if !wsaInitialized then
      let r := syscall os st (.WSAStartup 514)
      if r.1.ret ≠ 0 ∨ r.1.wVersion % 256 ≠ 2 ∨ r.1.wVersion / 256 % 256 ≠ 2 then
        (wsaInitialized, throwNew r.2 "java/io/IOException" "WSAStartup failed")
      else
        (true, r.2)
    else (wsaInitialized, st)
  else (wsaInitialized, st)

/-- The function `create`. -/
def create (P : Platform) (os : Syscall → Outcome) (st : State) : SOCKET × State :=
  let r := syscall os st (.socket P.AF_INET P.SOCK_STREAM P.IPPROTO_TCP)
  if P.INVALID_SOCKET = r.1.ret then
    (0, throwNew r.2 "java/io/IOException"
      ("Can't create the socket. System error: " ++ fmt_d (last_socket_error r.2)))
  else
    (r.1.ret, r.2)

/-- The function `connect(JNIEnv*, SOCKET, uint32_t, uint16_t)`. -/
def connect (P : Platform) (os : Syscall → Outcome) (st : State) (sock : SOCKET)
    (addr port : Nat) : Bool × State :=
  let adr := make_sockaddr P addr port
  let r := syscall os st (.connect sock adr sizeof_sockaddr_in)
  if P.SOCKET_ERROR = r.1.ret then
    let address_text := inet_ntop P adr.sin_addr
    (false, throwNew r.2 "java/net/SocketException"
      ("Can't connect the socket to address " ++ address_text ++ ":"
        ++ fmt_d (uint16_t port) ++ ". System error: " ++ fmt_d (last_socket_error r.2)))
  else
    (true, r.2)

/-- The wait interval computed from `timeout` (milliseconds) in `int`
arithmetic: `tv_sec = timeout / 1000`, `tv_usec = (timeout % 1000) * 1000`. -/
def timeVal (timeout : Int) : Int × Int :=
  (wrap32 (Int.tdiv timeout 1000), wrap32 (wrap32 (Int.tmod timeout 1000) * 1000))

/-- The function `connect(JNIEnv*, SOCKET, uint32_t, uint16_t, int timeout)`
(connect with timeout). -/
def connectTimeout (P : Platform) (os : Syscall → Outcome) (st : State) (sock : SOCKET)
    (addr port : Nat) (timeout : Int) : Bool × State :=
  let first : Option State × State :=
    if timeout > 0 then
      let r := syscall os st (.ioctlsocket sock P.FIONBIO 1)
      if P.NO_ERROR ≠ r.1.ret then
        (none, throwNew r.2 "java/io/IOException"
          ("Can't change the socket to non-blocking mode. System error: "
            ++ fmt_d (last_socket_error r.2)))
      else (some r.2, r.2)
    else (some st, st)
  match first with
  | (none, failed) => (false, failed)
  | (some st1, _) =>
    let c := connect P os st1 sock addr port
    if !c.1 then (false, c.2)
    else if timeout > 0 then
      let r := syscall os c.2 (.ioctlsocket sock P.FIONBIO 0)
      if P.NO_ERROR ≠ r.1.ret then
        (false, throwNew r.2 "java/io/IOException"
          ("Can't change the socket to blocking mode. System error: "
            ++ fmt_d (last_socket_error r.2)))
      else
        let tv := timeVal timeout
        let s := syscall os r.2 (.select (sock + 1) sock tv.1 tv.2)
        if P.SOCKET_ERROR = s.1.ret then
          (false, throwNew s.2 "java/io/IOException"
            ("Can't wait for the socket to be writable. System error: "
              ++ fmt_d (last_socket_error s.2)))
        else if s.1.writable then (true, s.2)
        else
          (false, throwNew s.2 "java/net/SocketTimeoutException"
            ("Connection timeout. System error: " ++ fmt_d (last_socket_error s.2)))
    else (true, c.2)

/-- The function `bind`. -/
def bind (P : Platform) (os : Syscall → Outcome) (st : State) (sock : SOCKET)
    (addr port : Nat) : State :=
  let adr := make_sockaddr P addr port
  let r := syscall os st (.bind sock adr sizeof_sockaddr_in)
  if P.SOCKET_ERROR = r.1.ret then
    let address_text := inet_ntop P adr.sin_addr
    throwNew r.2 "java/net/BindException"
      ("Can't bind the socket to address " ++ address_text ++ ":"
        ++ fmt_d (uint16_t port) ++ ". System error: " ++ fmt_d (last_socket_error r.2))
  else r.2

/-- The function `getLocalAddress`. -/
def getLocalAddress (P : Platform) (os : Syscall → Outcome) (st : State) (sock : SOCKET) :
    Nat × State :=
  let r := syscall os st (.getsockname sock)
  if P.SOCKET_ERROR = r.1.ret then
    (0, throwNew r.2 "java/io/IOException"
      ("Can't get the socket local address. System error: "
        ++ fmt_d (last_socket_error r.2)))
  else (ntohl P r.1.adr.sin_addr, r.2)

/-- The function `getLocalPort`. -/
def getLocalPort (P : Platform) (os : Syscall → Outcome) (st : State) (sock : SOCKET) :
    Nat × State :=
  let r := syscall os st (.getsockname sock)
  if P.SOCKET_ERROR = r.1.ret then
    (0, throwNew r.2 "java/io/IOException"
      ("Can't get the socket local port. System error: " ++ fmt_d (last_socket_error r.2)))
  else (ntohs P r.1.adr.sin_port, r.2)

/-- The function `getRemoteAddress`. -/
def getRemoteAddress (P : Platform) (os : Syscall → Outcome) (st : State) (sock : SOCKET) :
    Nat × State :=
  let r := syscall os st (.getpeername sock)
  if P.SOCKET_ERROR = r.1.ret then
    (0, throwNew r.2 "java/io/IOException"
      ("Can't get the socket remote address. System error: "
        ++ fmt_d (last_socket_error r.2)))
  else (ntohl P r.1.adr.sin_addr, r.2)

/-- The function `getRemotePort`. -/
def getRemotePort (P : Platform) (os : Syscall → Outcome) (st : State) (sock : SOCKET) :
    Nat × State :=
  let r := syscall os st (.getpeername sock)
  if P.SOCKET_ERROR = r.1.ret then
    (0, throwNew r.2 "java/io/IOException"
      ("Can't get the socket remote port. System error: " ++ fmt_d (last_socket_error r.2)))
  else (ntohs P r.1.adr.sin_port, r.2)

/-- The function `listen`. -/
def listen (P : Platform) (os : Syscall → Outcome) (st : State) (sock : SOCKET)
    (backlog : Int) : Bool × State :=
  let r := syscall os st (.listen sock backlog)
  if P.SOCKET_ERROR = r.1.ret then
    (false, throwNew r.2 "java/io/IOException"
      ("Can't set the socket to the listening state. System error: "
        ++ fmt_d (last_socket_error r.2)))
  else (true, r.2)

/-- What `accept` hands back: the new handle and the values stored through the
two out-pointers (`none` where the pointer is `NULL` or nothing was stored). -/
structure Accepted where
  client_socket : SOCKET
  client_addr : Option Nat
  client_port : Option Nat
deriving DecidableEq, Repr

/-- The function `accept`; `want_addr` and `want_port` say whether the
out-pointers `client_addr` and `client_port` are non-`NULL`. -/
def accept (P : Platform) (os : Syscall → Outcome) (st : State) (sock : SOCKET)
    (want_addr want_port : Bool) : Accepted × State :=
  let r := syscall os st (.accept sock)
  if P.INVALID_SOCKET = r.1.ret then
    (⟨P.INVALID_SOCKET, none, none⟩, throwNew r.2 "java/io/IOException"
      ("Can't accept the incoming connection. System error: "
        ++ fmt_d (last_socket_error r.2)))
  else
    (⟨r.1.ret,
      if want_addr then some (ntohl P r.1.adr.sin_addr) else none,
      if want_port then some (ntohs P r.1.adr.sin_port) else none⟩, r.2)

/-- The function `send`. -/
def send (P : Platform) (os : Syscall → Outcome) (st : State) (sock : SOCKET)
    (buff : List Nat) (buff_size : Int) : State :=
  let r := syscall os st (.send sock buff buff_size 0)
  if P.SOCKET_ERROR = r.1.ret then
    throwNew r.2 "java/io/IOException"
      ("Can't send data through the socket. System error: "
        ++ fmt_d (last_socket_error r.2))
  else r.2

/-- The function `recv`. -/
def recv (P : Platform) (os : Syscall → Outcome) (st : State) (sock : SOCKET)
    (buff_size : Int) (peek : Bool) : Int × State :=
  let flag := if peek then P.MSG_PEEK else 0
  let r := syscall os st (.recv sock buff_size flag)
  if P.SOCKET_ERROR = r.1.ret then
    (0, throwNew r.2 "java/io/IOException"
      ("Can't receive data through the socket. System error: "
        ++ fmt_d (last_socket_error r.2)))
  else (r.1.ret, r.2)

/-- The function `close`. -/
def close (P : Platform) (os : Syscall → Outcome) (st : State) (sock : SOCKET) : State :=
  let r := syscall os st (.closesocket sock)
  if P.SOCKET_ERROR = r.1.ret then
    let errcode := last_socket_error r.2
    throwNew r.2 "java/io/IOException"
      ("Can't shutdown the socket. System error: " ++ fmt_d errcode)
  else r.2

/-- The function `shutdown_input`. -/
def shutdown_input (P : Platform) (os : Syscall → Outcome) (st : State) (sock : SOCKET) :
    State :=
  let r := syscall os st (.shutdown sock P.SD_RECEIVE)
  if P.SOCKET_ERROR = r.1.ret then
    let errcode := last_socket_error r.2
    if errcode ≠ P.WSAENOTCONN then
      throwNew r.2 "java/io/IOException"
        ("Can't shutdown the socket. System error: " ++ fmt_d errcode)
    else r.2
  else r.2

/-- The function `shutdown_output`. -/
def shutdown_output (P : Platform) (os : Syscall → Outcome) (st : State) (sock : SOCKET) :
    State :=
  let r := syscall os st (.shutdown sock P.SD_SEND)
  if P.SOCKET_ERROR = r.1.ret then
    let errcode := last_socket_error r.2
    if errcode ≠ P.WSAENOTCONN then
      throwNew r.2 "java/io/IOException"
        ("Can't shutdown the socket. System error: " ++ fmt_d errcode)
    else r.2
  else r.2

/-! ## Observations used to state the properties -/

/-- The blocking mode a sequence of system calls leaves on `sock`: the `mode`
argument of the last `ioctlsocket(sock, FIONBIO, &mode)` in it that returned
`NO_ERROR` (`1` is non-blocking, `0` is blocking); `none` when no such call
succeeded. -/
def lastModeSet (P : Platform) (sock : SOCKET) : List (Syscall × Outcome) → Option Nat
  | [] => none
  | (c, o) :: rest =>
    match lastModeSet P sock rest with
    | some m => some m
    | none =>
      match c with
      | .ioctlsocket s cmd mode =>
        if s = sock ∧ cmd = P.FIONBIO ∧ o.ret = P.NO_ERROR then some mode else none
      | _ => none

/-- Whether a logged system call is a `select`. -/
def isSelect : Syscall → Bool
  | .select _ _ _ _ => true
  | _ => false

/-- An OS whose every call returns `0` and reports the handle writable. -/
def osAllOk : Syscall → Outcome :=
  fun _ => ⟨0, 0, default, true, 514⟩

/-- An OS on which the switch back to blocking mode fails with error 9
(`EBADF`) and every other call returns `0`. -/
def osRestoreFails : Syscall → Outcome
  | .ioctlsocket _ _ 0 => ⟨-1, 9, default, false, 0⟩
  | _ => ⟨0, 0, default, true, 514⟩

/-- An OS on which `connect` returns `-1` with `EINPROGRESS` (a non-blocking
connect under way) and every other call returns `0`. -/
def osInProgress : Syscall → Outcome
  | .connect _ _ _ => ⟨-1, EINPROGRESS, default, false, 0⟩
  | _ => ⟨0, 0, default, true, 514⟩

/-- An OS on which `connect` returns `-1` with `ECONNREFUSED` and every other
call returns `0`. -/
def osRefused : Syscall → Outcome
  | .connect _ _ _ => ⟨-1, ECONNREFUSED, default, false, 0⟩
  | _ => ⟨0, 0, default, true, 514⟩

/-- An OS on which every call returns `0` but `select` leaves the write set
empty (the wait timed out). -/
def osTimesOut : Syscall → Outcome
  | .select _ _ _ _ => ⟨0, 0, default, false, 0⟩
  | _ => ⟨0, 0, default, true, 514⟩

/-- An OS on which every call fails: result `-1`, error 24 (`EMFILE`). -/
def osAllFail : Syscall → Outcome :=
  fun _ => ⟨-1, 24, default, false, 0⟩

/-- An OS on which `shutdown` fails with `ENOTCONN` (the value of
`posix.WSAENOTCONN`) and every other call returns `0`. -/
def osNotConnected : Syscall → Outcome
  | .shutdown _ _ => ⟨-1, 107, default, false, 0⟩
  | _ => ⟨0, 0, default, true, 514⟩

/-- The class names of the exceptions raised so far. -/
def categories (st : State) : List String := st.thrown.map ErrorReport.category

/-- The address in dotted-decimal form, most significant byte first:
`a>>24 . (a>>16)&255 . (a>>8)&255 . a&255`. -/
def dottedDecimal (a : Nat) : String :=
  toString (a >>> 24) ++ "." ++ toString ((a >>> 16) &&& 255) ++ "."
    ++ toString ((a >>> 8) &&& 255) ++ "." ++ toString (a &&& 255)

/-- An OS whose address queries (`getsockname`, `getpeername`, `accept`) hand
back the `sockaddr_in` built for endpoint `192.168.1.1:8080`; `accept` returns
handle 4, every other call returns `0`. -/
def osEndpoint : Syscall → Outcome
  | .accept _ => ⟨4, 0, make_sockaddr posix 3232235777 8080, false, 0⟩
  | _ => ⟨0, 0, make_sockaddr posix 3232235777 8080, true, 514⟩

/-! ## Properties -/

/-- The result of `connect` when the OS call returns `SOCKET_ERROR`. -/
theorem connect_of_error (P : Platform) (os : Syscall → Outcome) (st : State) (sock : SOCKET)
    (addr port : Nat)
    (h : (os (.connect sock (make_sockaddr P addr port) sizeof_sockaddr_in)).ret
      = P.SOCKET_ERROR) :
    connect P os st sock addr port =
      (false, ⟨(os (.connect sock (make_sockaddr P addr port) sizeof_sockaddr_in)).err,
        st.trace ++ [(.connect sock (make_sockaddr P addr port) sizeof_sockaddr_in,
          os (.connect sock (make_sockaddr P addr port) sizeof_sockaddr_in))],
        st.thrown ++ [⟨"java/net/SocketException",
          "Can't connect the socket to address "
            ++ inet_ntop P (make_sockaddr P addr port).sin_addr ++ ":"
            ++ fmt_d (uint16_t port) ++ ". System error: "
            ++ fmt_d (os (.connect sock (make_sockaddr P addr port)
                sizeof_sockaddr_in)).err⟩]⟩) := by
  simp [connect, syscall, throwNew, last_socket_error, h]

/-- The result of `connect` when the OS call does not return `SOCKET_ERROR`. -/
theorem connect_of_ok (P : Platform) (os : Syscall → Outcome) (st : State) (sock : SOCKET)
    (addr port : Nat)
    (h : (os (.connect sock (make_sockaddr P addr port) sizeof_sockaddr_in)).ret
      ≠ P.SOCKET_ERROR) :
    connect P os st sock addr port =
      (true, ⟨(os (.connect sock (make_sockaddr P addr port) sizeof_sockaddr_in)).err,
        st.trace ++ [(.connect sock (make_sockaddr P addr port) sizeof_sockaddr_in,
          os (.connect sock (make_sockaddr P addr port) sizeof_sockaddr_in))],
        st.thrown⟩) := by
  have h2 : ¬ P.SOCKET_ERROR
      = (os (.connect sock (make_sockaddr P addr port) sizeof_sockaddr_in)).ret :=
    fun e => h e.symm
  simp [connect, syscall, h2]

/-- With a timeout `<= 0` both `if (timeout > 0)` blocks are skipped. -/
theorem connectTimeout_of_nonpos (P : Platform) (os : Syscall → Outcome)
    (st : State) (sock : SOCKET) (addr port : Nat) (timeout : Int) (h : timeout ≤ 0) :
    connectTimeout P os st sock addr port timeout = connect P os st sock addr port := by
  have ht : ¬ timeout > 0 := by omega
  by_cases hc : (os (.connect sock (make_sockaddr P addr port) sizeof_sockaddr_in)).ret
      = P.SOCKET_ERROR
  · simp [connectTimeout, ht, connect_of_error P os st sock addr port hc]
  · simp [connectTimeout, ht, connect_of_ok P os st sock addr port hc]

/-- The function `connect` makes exactly one system call. -/
theorem connect_trace (P : Platform) (os : Syscall → Outcome) (st : State) (sock : SOCKET)
    (addr port : Nat) :
    (connect P os st sock addr port).2.trace
      = st.trace ++ [(.connect sock (make_sockaddr P addr port) sizeof_sockaddr_in,
          os (.connect sock (make_sockaddr P addr port) sizeof_sockaddr_in))] := by
  by_cases hc : (os (.connect sock (make_sockaddr P addr port) sizeof_sockaddr_in)).ret
      = P.SOCKET_ERROR
  · rw [connect_of_error P os st sock addr port hc]
  · rw [connect_of_ok P os st sock addr port hc]

/-- C2: for a timeout `<= 0`, connect-with-timeout is `connect`: the same
result and the same effects (exceptions raised, `errno`, system calls), and the
only system call made is the one OS `connect` on the address built from the
endpoint, so no `ioctlsocket` and no `select`. -/
theorem connectTimeout_nonpositive_eq_connect (P : Platform) (os : Syscall → Outcome)
    (st : State) (sock : SOCKET) (addr port : Nat) (timeout : Int) (h : timeout ≤ 0) :
    connectTimeout P os st sock addr port timeout = connect P os st sock addr port
    ∧ (connectTimeout P os st sock addr port timeout).2.trace
        = st.trace ++ [(.connect sock (make_sockaddr P addr port) sizeof_sockaddr_in,
            os (.connect sock (make_sockaddr P addr port) sizeof_sockaddr_in))] := by
  rw [connectTimeout_of_nonpos P os st sock addr port timeout h]
  exact ⟨rfl, connect_trace P os st sock addr port⟩

/-- C2 at timeout `0` on a refused connection to `127.0.0.1:80`. -/
theorem connectTimeout_nonpositive_eq_connect_witness :
    connectTimeout posix osRefused (State.start 0) 3 2130706433 80 0
      = connect posix osRefused (State.start 0) 3 2130706433 80
    ∧ (connectTimeout posix osRefused (State.start 0) 3 2130706433 80 0).2.trace
        = (State.start 0).trace
          ++ [(.connect 3 (make_sockaddr posix 2130706433 80) sizeof_sockaddr_in,
            osRefused (.connect 3 (make_sockaddr posix 2130706433 80) sizeof_sockaddr_in))] :=
  connectTimeout_nonpositive_eq_connect posix osRefused (State.start 0) 3 2130706433 80 0
    (by decide)

/-- C4: for a timeout `> 0`, when both mode switches succeed and the OS
`connect` does not return the failure sentinel, the `select` outcome alone
decides the result: `SOCKET_ERROR` gives `false` with one
`java/io/IOException`; no error and the handle not in the write set gives
`false` with one `java/net/SocketTimeoutException`; the handle in the write set
gives `true` with nothing raised.  The timeout class name differs from the
names `connect` and the I/O failures are raised under. -/
theorem connectTimeout_decided_by_select (P : Platform) (os : Syscall → Outcome)
    (e : Int) (sock : SOCKET) (addr port : Nat) (timeout : Int) (ht : timeout > 0)
    (h1 : (os (.ioctlsocket sock P.FIONBIO 1)).ret = P.NO_ERROR)
    (hc : (os (.connect sock (make_sockaddr P addr port) sizeof_sockaddr_in)).ret
      ≠ P.SOCKET_ERROR)
    (h0 : (os (.ioctlsocket sock P.FIONBIO 0)).ret = P.NO_ERROR) :
    ((os (.select (sock + 1) sock (timeVal timeout).1 (timeVal timeout).2)).ret
        = P.SOCKET_ERROR →
      (connectTimeout P os (State.start e) sock addr port timeout).1 = false
      ∧ (connectTimeout P os (State.start e) sock addr port timeout).2.thrown
        = [⟨"java/io/IOException",
            "Can't wait for the socket to be writable. System error: "
              ++ fmt_d (os (.select (sock + 1) sock (timeVal timeout).1
                  (timeVal timeout).2)).err⟩])
    ∧ ((os (.select (sock + 1) sock (timeVal timeout).1 (timeVal timeout).2)).ret
        ≠ P.SOCKET_ERROR →
      (os (.select (sock + 1) sock (timeVal timeout).1 (timeVal timeout).2)).writable
        = false →
      (connectTimeout P os (State.start e) sock addr port timeout).1 = false
      ∧ (connectTimeout P os (State.start e) sock addr port timeout).2.thrown
        = [⟨"java/net/SocketTimeoutException",
            "Connection timeout. System error: "
              ++ fmt_d (os (.select (sock + 1) sock (timeVal timeout).1
                  (timeVal timeout).2)).err⟩])
    ∧ ((os (.select (sock + 1) sock (timeVal timeout).1 (timeVal timeout).2)).ret
        ≠ P.SOCKET_ERROR →
      (os (.select (sock + 1) sock (timeVal timeout).1 (timeVal timeout).2)).writable
        = true →
      (connectTimeout P os (State.start e) sock addr port timeout).1 = true
      ∧ (connectTimeout P os (State.start e) sock addr port timeout).2.thrown = [])
    ∧ "java/net/SocketTimeoutException" ≠ "java/net/SocketException"
    ∧ "java/net/SocketTimeoutException" ≠ "java/io/IOException" := by
  refine ⟨?_, ?_, ?_, by decide, by decide⟩
  · intro hs
    simp [connectTimeout, ht, syscall, throwNew, last_socket_error, State.start, h1, h0, hs,
      connect_of_ok P os _ sock addr port hc]
  · intro hs hw
    have hs2 : ¬ P.SOCKET_ERROR
        = (os (.select (sock + 1) sock (timeVal timeout).1 (timeVal timeout).2)).ret :=
      fun e => hs e.symm
    simp [connectTimeout, ht, syscall, throwNew, last_socket_error, State.start, h1, h0, hs2,
      hw, connect_of_ok P os _ sock addr port hc]
  · intro hs hw
    have hs2 : ¬ P.SOCKET_ERROR
        = (os (.select (sock + 1) sock (timeVal timeout).1 (timeVal timeout).2)).ret :=
      fun e => hs e.symm
    simp [connectTimeout, ht, syscall, throwNew, last_socket_error, State.start, h1, h0, hs2,
      hw, connect_of_ok P os _ sock addr port hc]

/-- C4 at timeout 200 ms with a `select` that times out. -/
theorem connectTimeout_decided_by_select_witness :
    (200 : Int) > 0
    ∧ (osTimesOut (.ioctlsocket 3 posix.FIONBIO 1)).ret = posix.NO_ERROR
    ∧ (osTimesOut (.select (3 + 1) 3 (timeVal 200).1 (timeVal 200).2)).writable = false
    ∧ (connectTimeout posix osTimesOut (State.start 0) 3 2130706433 80 200).1 = false
    ∧ (connectTimeout posix osTimesOut (State.start 0) 3 2130706433 80 200).2.thrown
        = [⟨"java/net/SocketTimeoutException", "Connection timeout. System error: 0"⟩] :=
  ⟨by decide, by decide, by decide,
    (connectTimeout_decided_by_select posix osTimesOut 0 3 2130706433 80 200
      (by decide) (by decide) (by decide) (by decide)).2.1 (by decide) (by decide)⟩

/-- C10: for a 32-bit signed timeout `T > 0`, the interval computed in `int`
arithmetic is `tv_sec = T / 1000`, `tv_usec = (T % 1000) * 1000`; the
intermediate values `T % 1000` and `(T % 1000) * 1000` stay inside the 32-bit
range (wrapping changes nothing), `0 <= tv_usec < 1000000` and
`tv_sec * 1000000 + tv_usec = T * 1000`.  Every `select` that
connect-with-timeout issues is `select(sock + 1, {sock}, T / 1000,
(T % 1000) * 1000)`, and it is issued once the two mode switches and the OS
`connect` have gone through. -/
theorem select_interval_exact (T : Int) (hpos : 0 < T) (hmax : T < 2147483648) :
    timeVal T = (T / 1000, T % 1000 * 1000)
    ∧ wrap32 (Int.tmod T 1000) = T % 1000
    ∧ wrap32 (T % 1000 * 1000) = T % 1000 * 1000
    ∧ -2147483648 ≤ T % 1000 * 1000 ∧ T % 1000 * 1000 < 2147483648
    ∧ 0 ≤ (timeVal T).2 ∧ (timeVal T).2 < 1000000
    ∧ (timeVal T).1 * 1000000 + (timeVal T).2 = T * 1000
    ∧ (∀ (P : Platform) (os : Syscall → Outcome) (e : Int) (sock : SOCKET) (addr port : Nat),
        (∀ x ∈ (connectTimeout P os (State.start e) sock addr port T).2.trace,
          isSelect x.1 = true →
            x.1 = .select (sock + 1) sock (T / 1000) (T % 1000 * 1000))
        ∧ ((os (.ioctlsocket sock P.FIONBIO 1)).ret = P.NO_ERROR →
            (os (.connect sock (make_sockaddr P addr port) sizeof_sockaddr_in)).ret
              ≠ P.SOCKET_ERROR →
            (os (.ioctlsocket sock P.FIONBIO 0)).ret = P.NO_ERROR →
            ∃ o, (Syscall.select (sock + 1) sock (T / 1000) (T % 1000 * 1000), o)
              ∈ (connectTimeout P os (State.start e) sock addr port T).2.trace)) := by
  have hd : Int.tdiv T 1000 = T / 1000 := Int.tdiv_eq_ediv (by omega) (by omega)
  have hm : Int.tmod T 1000 = T % 1000 := Int.tmod_eq_emod (by omega) (by omega)
  have htv : timeVal T = (T / 1000, T % 1000 * 1000) := by
    simp only [timeVal, wrap32, hd, hm, Prod.mk.injEq]
    constructor <;> omega
  have ht : T > 0 := hpos
  refine ⟨htv, ?_, ?_, ?_, ?_, ?_, ?_, ?_, ?_⟩
  · simp only [wrap32, hm]; omega
  · simp only [wrap32]; omega
  · omega
  · omega
  · rw [htv]; show 0 ≤ T % 1000 * 1000; omega
  · rw [htv]; show T % 1000 * 1000 < 1000000; omega
  · rw [htv]; show T / 1000 * 1000000 + T % 1000 * 1000 = T * 1000; omega
  · intro P os e sock addr port
    constructor
    · intro x hx hsel
      by_cases h1 : (os (.ioctlsocket sock P.FIONBIO 1)).ret = P.NO_ERROR
      · by_cases hc : (os (.connect sock (make_sockaddr P addr port)
            sizeof_sockaddr_in)).ret = P.SOCKET_ERROR
        · simp [connectTimeout, ht, syscall, State.start, h1,
            connect_of_error P os _ sock addr port hc] at hx
          rcases hx with rfl | rfl <;> simp [isSelect] at hsel
        · by_cases h0 : (os (.ioctlsocket sock P.FIONBIO 0)).ret = P.NO_ERROR
          · by_cases hs : P.SOCKET_ERROR = (os (.select (sock + 1) sock (T / 1000)
                (T % 1000 * 1000))).ret
            · simp [connectTimeout, ht, syscall, throwNew, State.start, h1, h0, htv, hs,
                connect_of_ok P os _ sock addr port hc] at hx
              rcases hx with rfl | rfl | rfl | rfl <;> simp [isSelect] at hsel ⊢
            · by_cases hw : (os (.select (sock + 1) sock (T / 1000)
                  (T % 1000 * 1000))).writable = true
              · simp [connectTimeout, ht, syscall, throwNew, State.start, h1, h0, htv, hs,
                  hw, connect_of_ok P os _ sock addr port hc] at hx
                rcases hx with rfl | rfl | rfl | rfl <;> simp [isSelect] at hsel ⊢
              · simp [connectTimeout, ht, syscall, throwNew, State.start, h1, h0, htv, hs,
                  hw, connect_of_ok P os _ sock addr port hc] at hx
                rcases hx with rfl | rfl | rfl | rfl <;> simp [isSelect] at hsel ⊢
          · have h0b : ¬ P.NO_ERROR = (os (.ioctlsocket sock P.FIONBIO 0)).ret :=
              fun e => h0 e.symm
            simp [connectTimeout, ht, syscall, throwNew, State.start, h1, h0b,
              connect_of_ok P os _ sock addr port hc] at hx
            rcases hx with rfl | rfl | rfl <;> simp [isSelect] at hsel
      · have h1b : ¬ P.NO_ERROR = (os (.ioctlsocket sock P.FIONBIO 1)).ret :=
          fun e => h1 e.symm
        simp [connectTimeout, ht, syscall, throwNew, State.start, h1b] at hx
        subst hx
        simp [isSelect] at hsel
    · intro h1 hc h0
      refine ⟨os (.select (sock + 1) sock (T / 1000) (T % 1000 * 1000)), ?_⟩
      by_cases hs : P.SOCKET_ERROR = (os (.select (sock + 1) sock (T / 1000)
          (T % 1000 * 1000))).ret
      · simp [connectTimeout, ht, syscall, throwNew, State.start, h1, h0, htv, hs,
          connect_of_ok P os _ sock addr port hc]
      · by_cases hw : (os (.select (sock + 1) sock (T / 1000)
            (T % 1000 * 1000))).writable = true
        · simp [connectTimeout, ht, syscall, throwNew, State.start, h1, h0, htv, hs,
            hw, connect_of_ok P os _ sock addr port hc]
        · simp [connectTimeout, ht, syscall, throwNew, State.start, h1, h0, htv, hs,
            hw, connect_of_ok P os _ sock addr port hc]

/-- C10 at 1500 ms: one second and 500000 microseconds. -/
theorem select_interval_exact_witness :
    (0 : Int) < 1500 ∧ (1500 : Int) < 2147483648
    ∧ timeVal 1500 = (1, 500000)
    ∧ (timeVal 1500).1 * 1000000 + (timeVal 1500).2 = 1500 * 1000 :=
  ⟨by decide, by decide,
    (select_interval_exact 1500 (by decide) (by decide)).1,
    (select_interval_exact 1500 (by decide) (by decide)).2.2.2.2.2.2.2.1⟩

/-- C1 (counterexample): timeout 200 ms, the switch to non-blocking mode and
the OS `connect` succeed, the switch back to blocking mode fails with error 9.
The call returns `false` with one `java/io/IOException`, and the last mode it
set successfully on the handle is non-blocking (`1`). -/
theorem connectTimeout_restore_failure_leaves_nonblocking :
    (connectTimeout posix osRestoreFails (State.start 0) 3 2130706433 80 200).1 = false
    ∧ (connectTimeout posix osRestoreFails (State.start 0) 3 2130706433 80 200).2.thrown
        = [⟨"java/io/IOException",
            "Can't change the socket to blocking mode. System error: 9"⟩]
    ∧ lastModeSet posix 3
        (connectTimeout posix osRestoreFails (State.start 0) 3 2130706433 80 200).2.trace
        = some 1 := by
  decide

/-- C1 (amended): connect-with-timeout sets no mode on the handle when the
timeout is `<= 0` or when the switch to non-blocking mode fails; when the
timeout is `> 0`, the switch to non-blocking mode succeeds, the OS `connect`
does not return the failure sentinel and the switch back succeeds, the last
mode set is blocking (`0`) whatever `select` then answers (success, timeout or
`select` error); when the switch back fails the call reports
`java/io/IOException` and the last mode set is non-blocking (`1`). -/
theorem connectTimeout_mode_on_return (P : Platform) (os : Syscall → Outcome) (e : Int)
    (sock : SOCKET) (addr port : Nat) (timeout : Int) :
    (timeout ≤ 0 ∨ (os (.ioctlsocket sock P.FIONBIO 1)).ret ≠ P.NO_ERROR →
      lastModeSet P sock
        (connectTimeout P os (State.start e) sock addr port timeout).2.trace = none)
    ∧ (timeout > 0 →
        (os (.ioctlsocket sock P.FIONBIO 1)).ret = P.NO_ERROR →
        (os (.connect sock (make_sockaddr P addr port) sizeof_sockaddr_in)).ret
          ≠ P.SOCKET_ERROR →
        (os (.ioctlsocket sock P.FIONBIO 0)).ret = P.NO_ERROR →
        lastModeSet P sock
          (connectTimeout P os (State.start e) sock addr port timeout).2.trace = some 0)
    ∧ (timeout > 0 →
        (os (.ioctlsocket sock P.FIONBIO 1)).ret = P.NO_ERROR →
        (os (.connect sock (make_sockaddr P addr port) sizeof_sockaddr_in)).ret
          ≠ P.SOCKET_ERROR →
        (os (.ioctlsocket sock P.FIONBIO 0)).ret ≠ P.NO_ERROR →
        lastModeSet P sock
          (connectTimeout P os (State.start e) sock addr port timeout).2.trace = some 1
        ∧ (connectTimeout P os (State.start e) sock addr port timeout).1 = false
        ∧ categories (connectTimeout P os (State.start e) sock addr port timeout).2
          = ["java/io/IOException"]) := by
  refine ⟨?_, ?_, ?_⟩
  · rintro (ht | h1)
    · rw [connectTimeout_of_nonpos P os (State.start e) sock addr port timeout ht,
        connect_trace]
      simp [State.start, lastModeSet]
    · have h1b : ¬ P.NO_ERROR = (os (.ioctlsocket sock P.FIONBIO 1)).ret :=
        fun e => h1 e.symm
      by_cases ht : timeout > 0
      · simp [connectTimeout, ht, syscall, throwNew, State.start, h1b, lastModeSet, h1]
      · rw [connectTimeout_of_nonpos P os (State.start e) sock addr port timeout
          (by omega), connect_trace]
        simp [State.start, lastModeSet]
  · intro ht h1 hc h0
    by_cases hs : P.SOCKET_ERROR = (os (.select (sock + 1) sock (timeVal timeout).1
        (timeVal timeout).2)).ret
    · simp [connectTimeout, ht, syscall, throwNew, State.start, h1, h0, hs, lastModeSet,
        connect_of_ok P os _ sock addr port hc]
    · by_cases hw : (os (.select (sock + 1) sock (timeVal timeout).1
          (timeVal timeout).2)).writable = true
      · simp [connectTimeout, ht, syscall, throwNew, State.start, h1, h0, hs, hw,
          lastModeSet, connect_of_ok P os _ sock addr port hc]
      · simp [connectTimeout, ht, syscall, throwNew, State.start, h1, h0, hs, hw,
          lastModeSet, connect_of_ok P os _ sock addr port hc]
  · intro ht h1 hc h0
    have h0b : ¬ P.NO_ERROR = (os (.ioctlsocket sock P.FIONBIO 0)).ret :=
      fun e => h0 e.symm
    simp [connectTimeout, ht, syscall, throwNew, State.start, h1, h0b, h0, lastModeSet,
      categories, connect_of_ok P os _ sock addr port hc]

/-- C1 (amended) at timeout 200 ms with a `select` that times out: the handle
is back in blocking mode. -/
theorem connectTimeout_mode_on_return_witness :
    (200 : Int) > 0
    ∧ (osTimesOut (.ioctlsocket 5 posix.FIONBIO 1)).ret = posix.NO_ERROR
    ∧ (osTimesOut (.connect 5 (make_sockaddr posix 2130706433 8080)
        sizeof_sockaddr_in)).ret ≠ posix.SOCKET_ERROR
    ∧ (osTimesOut (.ioctlsocket 5 posix.FIONBIO 0)).ret = posix.NO_ERROR
    ∧ lastModeSet posix 5
        (connectTimeout posix osTimesOut (State.start 0) 5 2130706433 8080 200).2.trace
        = some 0 :=
  ⟨by decide, by decide, by decide, by decide,
    (connectTimeout_mode_on_return posix osTimesOut 0 5 2130706433 8080 200).2.1
      (by decide) (by decide) (by decide) (by decide)⟩

/-- C3 (the code at the failing input): timeout 200 ms, the switch to
non-blocking mode succeeds and the OS `connect` returns `-1` with
`EINPROGRESS` (115).  The call raises `java/net/SocketException` and returns
`false` after two system calls: blocking mode is not restored, `select` is not
called, and the handle is left non-blocking. -/
theorem connectTimeout_in_progress_raises :
    connectTimeout posix osInProgress (State.start 0) 3 2130706433 80 200
      = (false,
          ⟨115,
            [(.ioctlsocket 3 21537 1, ⟨0, 0, default, true, 514⟩),
              (.connect 3 ⟨2, 20480, 16777343⟩ 16, ⟨-1, 115, default, false, 0⟩)],
            [⟨"java/net/SocketException",
              "Can't connect the socket to address 127.0.0.1:80. System error: 115"⟩]⟩)
    ∧ lastModeSet posix 3
        (connectTimeout posix osInProgress (State.start 0) 3 2130706433 80 200).2.trace
        = some 1 := by
  decide

/-- C5: `shutdown_input` and `shutdown_output` raise exactly when the OS
`shutdown` returns `SOCKET_ERROR` and the platform error code is not
`WSAENOTCONN`; what they raise is then one `java/io/IOException`.  A shutdown
whose OS call fails with "not connected" (a second shutdown of the same
handle, say) raises nothing. -/
theorem shutdown_raises_iff (P : Platform) (os : Syscall → Outcome) (e : Int)
    (sock : SOCKET) :
    ((shutdown_input P os (State.start e) sock).thrown ≠ [] ↔
      ((os (.shutdown sock P.SD_RECEIVE)).ret = P.SOCKET_ERROR
        ∧ (os (.shutdown sock P.SD_RECEIVE)).err ≠ P.WSAENOTCONN))
    ∧ categories (shutdown_input P os (State.start e) sock)
        = (if (os (.shutdown sock P.SD_RECEIVE)).ret = P.SOCKET_ERROR
              ∧ (os (.shutdown sock P.SD_RECEIVE)).err ≠ P.WSAENOTCONN
            then ["java/io/IOException"] else [])
    ∧ ((shutdown_output P os (State.start e) sock).thrown ≠ [] ↔
      ((os (.shutdown sock P.SD_SEND)).ret = P.SOCKET_ERROR
        ∧ (os (.shutdown sock P.SD_SEND)).err ≠ P.WSAENOTCONN))
    ∧ categories (shutdown_output P os (State.start e) sock)
        = (if (os (.shutdown sock P.SD_SEND)).ret = P.SOCKET_ERROR
              ∧ (os (.shutdown sock P.SD_SEND)).err ≠ P.WSAENOTCONN
            then ["java/io/IOException"] else [])
    ∧ ((os (.shutdown sock P.SD_RECEIVE)).ret = P.SOCKET_ERROR
        ∧ (os (.shutdown sock P.SD_RECEIVE)).err = P.WSAENOTCONN →
          (shutdown_input P os (State.start e) sock).thrown = [])
    ∧ ((os (.shutdown sock P.SD_SEND)).ret = P.SOCKET_ERROR
        ∧ (os (.shutdown sock P.SD_SEND)).err = P.WSAENOTCONN →
          (shutdown_output P os (State.start e) sock).thrown = []) := by
  refine ⟨?_, ?_, ?_, ?_, ?_, ?_⟩
  · by_cases hr : P.SOCKET_ERROR = (os (.shutdown sock P.SD_RECEIVE)).ret
    · by_cases he : (os (.shutdown sock P.SD_RECEIVE)).err = P.WSAENOTCONN
      · simp [shutdown_input, syscall, throwNew, last_socket_error, State.start, hr, he]
      · simp [shutdown_input, syscall, throwNew, last_socket_error, State.start, hr, he]
    · have hr2 : ¬ (os (.shutdown sock P.SD_RECEIVE)).ret = P.SOCKET_ERROR :=
        fun e => hr e.symm
      simp [shutdown_input, syscall, State.start, hr, hr2]
  · by_cases hr : P.SOCKET_ERROR = (os (.shutdown sock P.SD_RECEIVE)).ret
    · by_cases he : (os (.shutdown sock P.SD_RECEIVE)).err = P.WSAENOTCONN
      · simp [categories, shutdown_input, syscall, throwNew, last_socket_error, State.start,
          hr, he]
      · simp [categories, shutdown_input, syscall, throwNew, last_socket_error, State.start,
          hr, he]
    · have hr2 : ¬ (os (.shutdown sock P.SD_RECEIVE)).ret = P.SOCKET_ERROR :=
        fun e => hr e.symm
      simp [categories, shutdown_input, syscall, State.start, hr, hr2]
  · by_cases hr : P.SOCKET_ERROR = (os (.shutdown sock P.SD_SEND)).ret
    · by_cases he : (os (.shutdown sock P.SD_SEND)).err = P.WSAENOTCONN
      · simp [shutdown_output, syscall, throwNew, last_socket_error, State.start, hr, he]
      · simp [shutdown_output, syscall, throwNew, last_socket_error, State.start, hr, he]
    · have hr2 : ¬ (os (.shutdown sock P.SD_SEND)).ret = P.SOCKET_ERROR :=
        fun e => hr e.symm
      simp [shutdown_output, syscall, State.start, hr, hr2]
  · by_cases hr : P.SOCKET_ERROR = (os (.shutdown sock P.SD_SEND)).ret
    · by_cases he : (os (.shutdown sock P.SD_SEND)).err = P.WSAENOTCONN
      · simp [categories, shutdown_output, syscall, throwNew, last_socket_error,
          State.start, hr, he]
      · simp [categories, shutdown_output, syscall, throwNew, last_socket_error,
          State.start, hr, he]
    · have hr2 : ¬ (os (.shutdown sock P.SD_SEND)).ret = P.SOCKET_ERROR :=
        fun e => hr e.symm
      simp [categories, shutdown_output, syscall, State.start, hr, hr2]
  · rintro ⟨hr, he⟩
    simp [shutdown_input, syscall, last_socket_error, State.start, hr, he]
  · rintro ⟨hr, he⟩
    simp [shutdown_output, syscall, last_socket_error, State.start, hr, he]

/-- C5 on a handle whose `shutdown` fails with "not connected": nothing raised. -/
theorem shutdown_raises_iff_witness :
    ((osNotConnected (.shutdown 3 posix.SD_RECEIVE)).ret = posix.SOCKET_ERROR
      ∧ (osNotConnected (.shutdown 3 posix.SD_RECEIVE)).err = posix.WSAENOTCONN)
    ∧ (shutdown_input posix osNotConnected (State.start 0) 3).thrown = [] :=
  ⟨by decide, (shutdown_raises_iff posix osNotConnected 0 3).2.2.2.2.1 (by decide)⟩

/-- Result and class names raised by connect-with-timeout, path by path. -/
theorem connectTimeout_summary (P : Platform) (os : Syscall → Outcome) (e : Int)
    (sock : SOCKET) (addr port : Nat) (timeout : Int) :
    ((connectTimeout P os (State.start e) sock addr port timeout).1,
      categories (connectTimeout P os (State.start e) sock addr port timeout).2)
    = (if timeout > 0 then
        if (os (.ioctlsocket sock P.FIONBIO 1)).ret ≠ P.NO_ERROR then
          (false, ["java/io/IOException"])
        else if (os (.connect sock (make_sockaddr P addr port) sizeof_sockaddr_in)).ret
            = P.SOCKET_ERROR then
          (false, ["java/net/SocketException"])
        else if (os (.ioctlsocket sock P.FIONBIO 0)).ret ≠ P.NO_ERROR then
          (false, ["java/io/IOException"])
        else if (os (.select (sock + 1) sock (timeVal timeout).1 (timeVal timeout).2)).ret
            = P.SOCKET_ERROR then
          (false, ["java/io/IOException"])
        else if (os (.select (sock + 1) sock (timeVal timeout).1
            (timeVal timeout).2)).writable then
          (true, [])
        else (false, ["java/net/SocketTimeoutException"])
      else if (os (.connect sock (make_sockaddr P addr port) sizeof_sockaddr_in)).ret
          = P.SOCKET_ERROR then
        (false, ["java/net/SocketException"])
      else (true, [])) := by
  by_cases ht : timeout > 0
  · by_cases h1 : (os (.ioctlsocket sock P.FIONBIO 1)).ret = P.NO_ERROR
    · by_cases hc : (os (.connect sock (make_sockaddr P addr port)
          sizeof_sockaddr_in)).ret = P.SOCKET_ERROR
      · simp [connectTimeout, ht, syscall, State.start, h1, categories, hc,
          connect_of_error P os _ sock addr port hc]
      · by_cases h0 : (os (.ioctlsocket sock P.FIONBIO 0)).ret = P.NO_ERROR
        · by_cases hs : (os (.select (sock + 1) sock (timeVal timeout).1
              (timeVal timeout).2)).ret = P.SOCKET_ERROR
          · simp [connectTimeout, ht, syscall, throwNew, State.start, h1, h0, hs, hc,
              categories, connect_of_ok P os _ sock addr port hc]
          · have hs2 : ¬ P.SOCKET_ERROR = (os (.select (sock + 1) sock (timeVal timeout).1
                (timeVal timeout).2)).ret := fun e => hs e.symm
            by_cases hw : (os (.select (sock + 1) sock (timeVal timeout).1
                (timeVal timeout).2)).writable = true
            · simp [connectTimeout, ht, syscall, throwNew, State.start, h1, h0, hs, hs2, hc,
                hw, categories, connect_of_ok P os _ sock addr port hc]
            · simp [connectTimeout, ht, syscall, throwNew, State.start, h1, h0, hs, hs2, hc,
                hw, categories, connect_of_ok P os _ sock addr port hc]
        · have h0b : ¬ P.NO_ERROR = (os (.ioctlsocket sock P.FIONBIO 0)).ret :=
            fun e => h0 e.symm
          simp [connectTimeout, ht, syscall, throwNew, State.start, h1, h0, h0b, hc,
            categories, connect_of_ok P os _ sock addr port hc]
    · have h1b : ¬ P.NO_ERROR = (os (.ioctlsocket sock P.FIONBIO 1)).ret :=
        fun e => h1 e.symm
      simp [connectTimeout, ht, syscall, throwNew, State.start, h1, h1b, categories]
  · rw [connectTimeout_of_nonpos P os _ sock addr port timeout (by omega)]
    by_cases hc : (os (.connect sock (make_sockaddr P addr port)
        sizeof_sockaddr_in)).ret = P.SOCKET_ERROR
    · simp [ht, hc, categories, connect_of_error P os _ sock addr port hc, State.start]
    · simp [ht, hc, categories, connect_of_ok P os _ sock addr port hc, State.start]

/-- C6 (counterexample): when the OS `socket` call returns the invalid-handle
sentinel, `create` raises under the class name `java/io/IOException`, the very
name `listen`, `accept`, `send`, `recv` and `close` raise under. -/
theorem create_category_same_as_listen :
    categories (create posix osAllFail (State.start 0)).2 = ["java/io/IOException"]
    ∧ categories (create posix osAllFail (State.start 0)).2
        = categories (listen posix osAllFail (State.start 0) 3 50).2
    ∧ categories (create posix osAllFail (State.start 0)).2
        = categories (accept posix osAllFail (State.start 0) 3 true true).2
    ∧ categories (create posix osAllFail (State.start 0)).2
        = categories (send posix osAllFail (State.start 0) 3 [104, 105] 2)
    ∧ categories (create posix osAllFail (State.start 0)).2
        = categories (recv posix osAllFail (State.start 0) 3 16 false).2
    ∧ categories (create posix osAllFail (State.start 0)).2
        = categories (close posix osAllFail (State.start 0) 3) := by
  decide

/-- C6 (amended): `create` raises exactly when the OS `socket` call returns the
invalid-handle sentinel, and it raises under `java/io/IOException`, the same
name `listen`, `accept`, `send`, `recv` and `close` raise under; `connect`
raises under `java/net/SocketException`, `bind` under
`java/net/BindException`; connect-with-timeout raises under
`java/net/SocketTimeoutException` when the wait ends without the handle being
writable, under `java/net/SocketException` when the OS `connect` fails and
under `java/io/IOException` when a mode switch or `select` fails; these four
names are pairwise distinct. -/
theorem error_categories (P : Platform) (os : Syscall → Outcome) (e : Int) (sock : SOCKET)
    (addr port : Nat) (backlog size timeout : Int) (buff : List Nat) (peek wa wp : Bool) :
    ((create P os (State.start e)).2.thrown ≠ [] ↔
      (os (.socket P.AF_INET P.SOCK_STREAM P.IPPROTO_TCP)).ret = P.INVALID_SOCKET)
    ∧ categories (create P os (State.start e)).2
        = (if (os (.socket P.AF_INET P.SOCK_STREAM P.IPPROTO_TCP)).ret = P.INVALID_SOCKET
            then ["java/io/IOException"] else [])
    ∧ categories (listen P os (State.start e) sock backlog).2
        = (if (os (.listen sock backlog)).ret = P.SOCKET_ERROR
            then ["java/io/IOException"] else [])
    ∧ categories (accept P os (State.start e) sock wa wp).2
        = (if (os (.accept sock)).ret = P.INVALID_SOCKET
            then ["java/io/IOException"] else [])
    ∧ categories (send P os (State.start e) sock buff size)
        = (if (os (.send sock buff size 0)).ret = P.SOCKET_ERROR
            then ["java/io/IOException"] else [])
    ∧ categories (recv P os (State.start e) sock size peek).2
        = (if (os (.recv sock size (if peek then P.MSG_PEEK else 0))).ret = P.SOCKET_ERROR
            then ["java/io/IOException"] else [])
    ∧ categories (close P os (State.start e) sock)
        = (if (os (.closesocket sock)).ret = P.SOCKET_ERROR
            then ["java/io/IOException"] else [])
    ∧ categories (connect P os (State.start e) sock addr port).2
        = (if (os (.connect sock (make_sockaddr P addr port) sizeof_sockaddr_in)).ret
              = P.SOCKET_ERROR
            then ["java/net/SocketException"] else [])
    ∧ categories (bind P os (State.start e) sock addr port)
        = (if (os (.bind sock (make_sockaddr P addr port) sizeof_sockaddr_in)).ret
              = P.SOCKET_ERROR
            then ["java/net/BindException"] else [])
    ∧ categories (connectTimeout P os (State.start e) sock addr port timeout).2
        = (if timeout > 0 then
            if (os (.ioctlsocket sock P.FIONBIO 1)).ret ≠ P.NO_ERROR then
              ["java/io/IOException"]
            else if (os (.connect sock (make_sockaddr P addr port)
                sizeof_sockaddr_in)).ret = P.SOCKET_ERROR then
              ["java/net/SocketException"]
            else if (os (.ioctlsocket sock P.FIONBIO 0)).ret ≠ P.NO_ERROR then
              ["java/io/IOException"]
            else if (os (.select (sock + 1) sock (timeVal timeout).1
                (timeVal timeout).2)).ret = P.SOCKET_ERROR then
              ["java/io/IOException"]
            else if (os (.select (sock + 1) sock (timeVal timeout).1
                (timeVal timeout).2)).writable then
              []
            else ["java/net/SocketTimeoutException"]
          else if (os (.connect sock (make_sockaddr P addr port)
              sizeof_sockaddr_in)).ret = P.SOCKET_ERROR then
            ["java/net/SocketException"]
          else [])
    ∧ ["java/io/IOException", "java/net/SocketException",
        "java/net/SocketTimeoutException", "java/net/BindException"].Nodup := by
  refine ⟨?_, ?_, ?_, ?_, ?_, ?_, ?_, ?_, ?_, ?_, by decide⟩
  · by_cases h : P.INVALID_SOCKET = (os (.socket P.AF_INET P.SOCK_STREAM P.IPPROTO_TCP)).ret
    · simp [create, syscall, throwNew, State.start, h]
    · have h2 : ¬ (os (.socket P.AF_INET P.SOCK_STREAM P.IPPROTO_TCP)).ret
          = P.INVALID_SOCKET := fun e => h e.symm
      simp [create, syscall, State.start, h, h2]
  · by_cases h : P.INVALID_SOCKET = (os (.socket P.AF_INET P.SOCK_STREAM P.IPPROTO_TCP)).ret
    · simp [categories, create, syscall, throwNew, State.start, h]
    · have h2 : ¬ (os (.socket P.AF_INET P.SOCK_STREAM P.IPPROTO_TCP)).ret
          = P.INVALID_SOCKET := fun e => h e.symm
      simp [categories, create, syscall, State.start, h, h2]
  · by_cases h : P.SOCKET_ERROR = (os (.listen sock backlog)).ret
    · simp [categories, listen, syscall, throwNew, State.start, h]
    · have h2 : ¬ (os (.listen sock backlog)).ret = P.SOCKET_ERROR := fun e => h e.symm
      simp [categories, listen, syscall, State.start, h, h2]
  · by_cases h : P.INVALID_SOCKET = (os (.accept sock)).ret
    · simp [categories, accept, syscall, throwNew, State.start, h]
    · have h2 : ¬ (os (.accept sock)).ret = P.INVALID_SOCKET := fun e => h e.symm
      simp [categories, accept, syscall, State.start, h, h2]
  · by_cases h : P.SOCKET_ERROR = (os (.send sock buff size 0)).ret
    · simp [categories, send, syscall, throwNew, State.start, h]
    · have h2 : ¬ (os (.send sock buff size 0)).ret = P.SOCKET_ERROR := fun e => h e.symm
      simp [categories, send, syscall, State.start, h, h2]
  · by_cases h : P.SOCKET_ERROR = (os (.recv sock size (if peek then P.MSG_PEEK else 0))).ret
    · simp [categories, recv, syscall, throwNew, State.start, h]
    · have h2 : ¬ (os (.recv sock size (if peek then P.MSG_PEEK else 0))).ret
          = P.SOCKET_ERROR := fun e => h e.symm
      simp [categories, recv, syscall, State.start, h, h2]
  · by_cases h : P.SOCKET_ERROR = (os (.closesocket sock)).ret
    · simp [categories, close, syscall, throwNew, last_socket_error, State.start, h]
    · have h2 : ¬ (os (.closesocket sock)).ret = P.SOCKET_ERROR := fun e => h e.symm
      simp [categories, close, syscall, State.start, h, h2]
  · by_cases h : (os (.connect sock (make_sockaddr P addr port) sizeof_sockaddr_in)).ret
        = P.SOCKET_ERROR
    · simp [categories, connect_of_error P os _ sock addr port h, State.start, h]
    · simp [categories, connect_of_ok P os _ sock addr port h, State.start, h]
  · by_cases h : P.SOCKET_ERROR
        = (os (.bind sock (make_sockaddr P addr port) sizeof_sockaddr_in)).ret
    · simp [categories, bind, syscall, throwNew, State.start, h]
    · have h2 : ¬ (os (.bind sock (make_sockaddr P addr port) sizeof_sockaddr_in)).ret
          = P.SOCKET_ERROR := fun e => h e.symm
      simp [categories, bind, syscall, State.start, h, h2]
  · have hsum := congrArg Prod.snd
      (connectTimeout_summary P os e sock addr port timeout)
    simp only [] at hsum
    rw [hsum]
    split_ifs <;> rfl

/-- Byte swap of a 32-bit value given by its four bytes. -/
theorem bswap32_bytes (b0 b1 b2 b3 : Nat) (h0 : b0 < 256) (h1 : b1 < 256) (h2 : b2 < 256)
    (h3 : b3 < 256) :
    bswap32 (b3 * 16777216 + b2 * 65536 + b1 * 256 + b0)
      = b0 * 16777216 + b1 * 65536 + b2 * 256 + b3 := by
  unfold bswap32
  omega

/-- The four bytes of a 32-bit value given by its four bytes. -/
theorem bytes_of_sum (b0 b1 b2 b3 : Nat) (h0 : b0 < 256) (h1 : b1 < 256) (h2 : b2 < 256)
    (h3 : b3 < 256) :
    (b3 * 16777216 + b2 * 65536 + b1 * 256 + b0) % 256 = b0
    ∧ (b3 * 16777216 + b2 * 65536 + b1 * 256 + b0) / 256 % 256 = b1
    ∧ (b3 * 16777216 + b2 * 65536 + b1 * 256 + b0) / 65536 % 256 = b2
    ∧ (b3 * 16777216 + b2 * 65536 + b1 * 256 + b0) / 16777216 % 256 = b3 := by
  have q1 : (b3 * 16777216 + b2 * 65536 + b1 * 256 + b0) / 256
      = b3 * 65536 + b2 * 256 + b1 := by omega
  have q2 : (b3 * 16777216 + b2 * 65536 + b1 * 256 + b0) / 65536 = b3 * 256 + b2 := by
    omega
  have q3 : (b3 * 16777216 + b2 * 65536 + b1 * 256 + b0) / 16777216 = b3 := by omega
  rw [q1, q2, q3]
  refine ⟨?_, ?_, ?_, ?_⟩ <;> omega

/-- A 32-bit value is the sum of its four bytes. -/
theorem bytes_of_uint32 (a : Nat) (h : a < 4294967296) :
    a = (a / 16777216) * 16777216 + (a / 65536 % 256) * 65536 + (a / 256 % 256) * 256
      + a % 256 ∧ a / 16777216 < 256 := by
  omega

/-- The 32-bit byte swap stays in range and is an involution. -/
theorem bswap32_bswap32 (a : Nat) (h : a < 4294967296) :
    bswap32 a < 4294967296 ∧ bswap32 (bswap32 a) = a := by
  obtain ⟨e, h3⟩ := bytes_of_uint32 a h
  have h0 : a % 256 < 256 := Nat.mod_lt _ (by norm_num)
  have h1 : a / 256 % 256 < 256 := Nat.mod_lt _ (by norm_num)
  have h2 : a / 65536 % 256 < 256 := Nat.mod_lt _ (by norm_num)
  generalize a / 16777216 = b3 at e h3
  generalize a / 65536 % 256 = b2 at e h2
  generalize a / 256 % 256 = b1 at e h1
  generalize a % 256 = b0 at e h0
  subst e
  rw [bswap32_bytes b0 b1 b2 b3 h0 h1 h2 h3]
  refine ⟨by omega, ?_⟩
  rw [bswap32_bytes b3 b2 b1 b0 h3 h2 h1 h0]

/-- The 16-bit byte swap stays in range and is an involution. -/
theorem bswap16_bswap16 (p : Nat) (h : p < 65536) :
    bswap16 p < 65536 ∧ bswap16 (bswap16 p) = p := by
  obtain ⟨e, h1⟩ : p = (p / 256) * 256 + p % 256 ∧ p / 256 < 256 := by omega
  have h0 : p % 256 < 256 := Nat.mod_lt _ (by norm_num)
  generalize p / 256 = b1 at e h1
  generalize p % 256 = b0 at e h0
  subst e
  have s1 : bswap16 (b1 * 256 + b0) = b0 * 256 + b1 := by unfold bswap16; omega
  have s2 : bswap16 (b0 * 256 + b1) = b1 * 256 + b0 := by unfold bswap16; omega
  rw [s1, s2]
  exact ⟨by omega, rfl⟩

/-- On either byte order `ntohl` undoes `htonl`. -/
theorem ntohl_htonl (P : Platform) (a : Nat) (h : a < 4294967296) :
    ntohl P (htonl P a) = a := by
  have ha : a % 4294967296 = a := Nat.mod_eq_of_lt h
  obtain ⟨hb, hbb⟩ := bswap32_bswap32 a h
  have hb2 : bswap32 a % 4294967296 = bswap32 a := Nat.mod_eq_of_lt hb
  unfold ntohl htonl uint32_t
  cases P.bigEndian <;> simp [ha, hb2, hbb]

/-- On either byte order `ntohs` undoes `htons`. -/
theorem ntohs_htons (P : Platform) (p : Nat) (h : p < 65536) :
    ntohs P (htons P p) = p := by
  have hp : p % 65536 = p := Nat.mod_eq_of_lt h
  obtain ⟨hb, hbb⟩ := bswap16_bswap16 p h
  have hb2 : bswap16 p % 65536 = bswap16 p := Nat.mod_eq_of_lt hb
  unfold ntohs htons uint16_t
  cases P.bigEndian <;> simp [hp, hb2, hbb]

/-- In memory `htonl a` has the most significant byte of `a` first. -/
theorem memBytes32_htonl (P : Platform) (a : Nat) (h : a < 4294967296) :
    memBytes32 P (htonl P a)
      = (a / 16777216, a / 65536 % 256, a / 256 % 256, a % 256) := by
  have ha : a % 4294967296 = a := Nat.mod_eq_of_lt h
  unfold memBytes32 htonl uint32_t
  rw [ha]
  cases P.bigEndian
  · simp only [Bool.false_eq_true, if_false]
    obtain ⟨e, h3⟩ := bytes_of_uint32 a h
    have h0 : a % 256 < 256 := Nat.mod_lt _ (by norm_num)
    have h1 : a / 256 % 256 < 256 := Nat.mod_lt _ (by norm_num)
    have h2 : a / 65536 % 256 < 256 := Nat.mod_lt _ (by norm_num)
    generalize a / 16777216 = b3 at e h3 ⊢
    generalize a / 65536 % 256 = b2 at e h2 ⊢
    generalize a / 256 % 256 = b1 at e h1 ⊢
    generalize a % 256 = b0 at e h0 ⊢
    rw [e, bswap32_bytes b0 b1 b2 b3 h0 h1 h2 h3]
    obtain ⟨r0, r1, r2, r3⟩ := bytes_of_sum b3 b2 b1 b0 h3 h2 h1 h0
    rw [r0, r1, r2, r3]
  · simp only [if_true, Prod.mk.injEq, and_true]
    omega

/-- The text `inet_ntop` gives for `htonl a` is the dotted-decimal form of `a`. -/
theorem inet_ntop_htonl (P : Platform) (a : Nat) (h : a < 4294967296) :
    inet_ntop P (htonl P a) = dottedDecimal a := by
  have e8 : ∀ x : Nat, x &&& 255 = x % 256 := fun x =>
    Nat.and_pow_two_sub_one_eq_mod x 8
  simp only [inet_ntop, memBytes32_htonl P a h, dottedDecimal, e8,
    Nat.shiftRight_eq_div_pow]

/-- A non-negative value printed with `%d` is its decimal form. -/
theorem fmt_d_ofNat (n : Nat) : fmt_d (n : Int) = toString n := rfl

/-- The function `bind` makes exactly one system call. -/
theorem bind_trace (P : Platform) (os : Syscall → Outcome) (st : State) (sock : SOCKET)
    (addr port : Nat) :
    (bind P os st sock addr port).trace
      = st.trace ++ [(.bind sock (make_sockaddr P addr port) sizeof_sockaddr_in,
          os (.bind sock (make_sockaddr P addr port) sizeof_sockaddr_in))] := by
  by_cases hb : P.SOCKET_ERROR
      = (os (.bind sock (make_sockaddr P addr port) sizeof_sockaddr_in)).ret
  · simp [bind, syscall, throwNew, hb]
  · simp [bind, syscall, hb]

/-- C7: endpoint round trip.  `bind` and `connect` pass the OS the
`sockaddr_in` with family `AF_INET`, address `htonl(a)` and port `htons(p)`;
when a successful `getsockname` (`getpeername`, `accept`) hands that very
structure back, `getLocalAddress` / `getLocalPort` (`getRemoteAddress` /
`getRemotePort`, the out-parameters of `accept`) give exactly `a` and `p`,
on either byte order. -/
theorem endpoint_round_trip (P : Platform) (a p : Nat) (ha : a < 4294967296)
    (hp : p < 65536) (os : Syscall → Outcome) (e : Int) (sock : SOCKET) :
    (∀ (osb : Syscall → Outcome) (h : SOCKET),
      (bind P osb (State.start e) h a p).trace
        = [(.bind h ⟨P.AF_INET, htons P p, htonl P a⟩ sizeof_sockaddr_in,
            osb (.bind h ⟨P.AF_INET, htons P p, htonl P a⟩ sizeof_sockaddr_in))]
      ∧ (connect P osb (State.start e) h a p).2.trace
        = [(.connect h ⟨P.AF_INET, htons P p, htonl P a⟩ sizeof_sockaddr_in,
            osb (.connect h ⟨P.AF_INET, htons P p, htonl P a⟩ sizeof_sockaddr_in))])
    ∧ ((os (.getsockname sock)).ret ≠ P.SOCKET_ERROR →
        (os (.getsockname sock)).adr = ⟨P.AF_INET, htons P p, htonl P a⟩ →
        getLocalAddress P os (State.start e) sock
            = (a, ⟨(os (.getsockname sock)).err,
                [(.getsockname sock, os (.getsockname sock))], []⟩)
        ∧ getLocalPort P os (State.start e) sock
            = (p, ⟨(os (.getsockname sock)).err,
                [(.getsockname sock, os (.getsockname sock))], []⟩))
    ∧ ((os (.getpeername sock)).ret ≠ P.SOCKET_ERROR →
        (os (.getpeername sock)).adr = ⟨P.AF_INET, htons P p, htonl P a⟩ →
        getRemoteAddress P os (State.start e) sock
            = (a, ⟨(os (.getpeername sock)).err,
                [(.getpeername sock, os (.getpeername sock))], []⟩)
        ∧ getRemotePort P os (State.start e) sock
            = (p, ⟨(os (.getpeername sock)).err,
                [(.getpeername sock, os (.getpeername sock))], []⟩))
    ∧ ((os (.accept sock)).ret ≠ P.INVALID_SOCKET →
        (os (.accept sock)).adr = ⟨P.AF_INET, htons P p, htonl P a⟩ →
        accept P os (State.start e) sock true true
            = (⟨(os (.accept sock)).ret, some a, some p⟩,
                ⟨(os (.accept sock)).err, [(.accept sock, os (.accept sock))], []⟩)) := by
  refine ⟨?_, ?_, ?_, ?_⟩
  · intro osb h
    constructor
    · have := bind_trace P osb (State.start e) h a p
      simpa [State.start, make_sockaddr] using this
    · have := connect_trace P osb (State.start e) h a p
      simpa [State.start, make_sockaddr] using this
  · intro hr hadr
    have hr2 : ¬ P.SOCKET_ERROR = (os (.getsockname sock)).ret := fun e => hr e.symm
    simp [getLocalAddress, getLocalPort, syscall, State.start, hr2, hadr,
      ntohl_htonl P a ha, ntohs_htons P p hp]
  · intro hr hadr
    have hr2 : ¬ P.SOCKET_ERROR = (os (.getpeername sock)).ret := fun e => hr e.symm
    simp [getRemoteAddress, getRemotePort, syscall, State.start, hr2, hadr,
      ntohl_htonl P a ha, ntohs_htons P p hp]
  · intro hr hadr
    have hr2 : ¬ P.INVALID_SOCKET = (os (.accept sock)).ret := fun e => hr e.symm
    simp [accept, syscall, State.start, hr2, hadr, ntohl_htonl P a ha, ntohs_htons P p hp]

/-- C7 at endpoint `192.168.1.1:8080` on a little-endian host. -/
theorem endpoint_round_trip_witness :
    (3232235777 : Nat) < 4294967296 ∧ (8080 : Nat) < 65536
    ∧ (osEndpoint (.getsockname 3)).ret ≠ posix.SOCKET_ERROR
    ∧ (osEndpoint (.getsockname 3)).adr
        = ⟨posix.AF_INET, htons posix 8080, htonl posix 3232235777⟩
    ∧ (getLocalAddress posix osEndpoint (State.start 0) 3).1 = 3232235777
    ∧ (getLocalPort posix osEndpoint (State.start 0) 3).1 = 8080 :=
  ⟨by decide, by decide, by decide, by decide,
    congrArg Prod.fst
      ((endpoint_round_trip posix 3232235777 8080 (by decide) (by decide) osEndpoint 0 3).2.1
        (by decide) (by decide)).1,
    congrArg Prod.fst
      ((endpoint_round_trip posix 3232235777 8080 (by decide) (by decide) osEndpoint 0 3).2.1
        (by decide) (by decide)).2⟩

/-- C8: when the OS `connect` (respectively `bind`) call fails on endpoint
`(a, p)` with platform error code `c`, exactly one report is raised and its
message is `Can't connect the socket to address A:P. System error: C`
(respectively `Can't bind the socket to address A:P. System error: C`), with
`A` the dotted-decimal form of `a`, most significant byte first, `P` the
decimal form of `p` and `C` the decimal form of `c`. -/
theorem endpoint_error_message (P : Platform) (os : Syscall → Outcome) (e : Int)
    (sock : SOCKET) (a p : Nat) (ha : a < 4294967296) (hp : p < 65536) :
    ((os (.connect sock (make_sockaddr P a p) sizeof_sockaddr_in)).ret = P.SOCKET_ERROR →
      (connect P os (State.start e) sock a p).2.thrown
        = [⟨"java/net/SocketException",
            "Can't connect the socket to address " ++ dottedDecimal a ++ ":"
              ++ toString p ++ ". System error: "
              ++ toString (os (.connect sock (make_sockaddr P a p)
                  sizeof_sockaddr_in)).err⟩])
    ∧ ((os (.bind sock (make_sockaddr P a p) sizeof_sockaddr_in)).ret = P.SOCKET_ERROR →
      (bind P os (State.start e) sock a p).thrown
        = [⟨"java/net/BindException",
            "Can't bind the socket to address " ++ dottedDecimal a ++ ":"
              ++ toString p ++ ". System error: "
              ++ toString (os (.bind sock (make_sockaddr P a p)
                  sizeof_sockaddr_in)).err⟩]) := by
  have hp2 : uint16_t p = p := Nat.mod_eq_of_lt hp
  have hadr : (make_sockaddr P a p).sin_addr = htonl P a := rfl
  constructor
  · intro hc
    rw [connect_of_error P os _ sock a p hc, hadr, inet_ntop_htonl P a ha, hp2, fmt_d_ofNat]
    rfl
  · intro hb
    simp only [bind, syscall, throwNew, last_socket_error, State.start, hb, if_true,
      List.nil_append, hadr, inet_ntop_htonl P a ha, hp2, fmt_d_ofNat]
    rfl

/-- C8 at a refused connection to `127.0.0.1:80` (error 111). -/
theorem endpoint_error_message_witness :
    (2130706433 : Nat) < 4294967296 ∧ (80 : Nat) < 65536
    ∧ (osRefused (.connect 3 (make_sockaddr posix 2130706433 80) sizeof_sockaddr_in)).ret
        = posix.SOCKET_ERROR
    ∧ (connect posix osRefused (State.start 0) 3 2130706433 80).2.thrown
        = [⟨"java/net/SocketException",
            "Can't connect the socket to address 127.0.0.1:80. System error: 111"⟩] :=
  ⟨by decide, by decide, by decide,
    (endpoint_error_message posix osRefused 0 3 2130706433 80 (by decide) (by decide)).1
      (by decide)⟩

/-- The raised reports and their class names have the same length. -/
theorem thrown_of_categories (st : State) :
    (st.thrown = [] ↔ categories st = []) ∧ st.thrown.length = (categories st).length := by
  simp [categories]

/-- C9: exactly one of success and error report.  `connect`,
connect-with-timeout and `listen` return `true` exactly when they raised
nothing, and every operation of the layer (these three, `create`, `bind`,
`accept`, `send`, `recv`, `close`, the four endpoint queries, the two
shutdowns and `init`) raises at most one report per call. -/
theorem one_outcome_per_call (P : Platform) (os : Syscall → Outcome) (e : Int)
    (sock : SOCKET) (addr port : Nat) (backlog size timeout : Int) (buff : List Nat)
    (peek wa wp wsa : Bool) :
    (((connect P os (State.start e) sock addr port).1 = true
        ↔ (connect P os (State.start e) sock addr port).2.thrown = [])
      ∧ (connect P os (State.start e) sock addr port).2.thrown.length ≤ 1)
    ∧ (((connectTimeout P os (State.start e) sock addr port timeout).1 = true
        ↔ (connectTimeout P os (State.start e) sock addr port timeout).2.thrown = [])
      ∧ (connectTimeout P os (State.start e) sock addr port timeout).2.thrown.length ≤ 1)
    ∧ (((listen P os (State.start e) sock backlog).1 = true
        ↔ (listen P os (State.start e) sock backlog).2.thrown = [])
      ∧ (listen P os (State.start e) sock backlog).2.thrown.length ≤ 1)
    ∧ (create P os (State.start e)).2.thrown.length ≤ 1
    ∧ (bind P os (State.start e) sock addr port).thrown.length ≤ 1
    ∧ (accept P os (State.start e) sock wa wp).2.thrown.length ≤ 1
    ∧ (send P os (State.start e) sock buff size).thrown.length ≤ 1
    ∧ (recv P os (State.start e) sock size peek).2.thrown.length ≤ 1
    ∧ (close P os (State.start e) sock).thrown.length ≤ 1
    ∧ (getLocalAddress P os (State.start e) sock).2.thrown.length ≤ 1
    ∧ (getLocalPort P os (State.start e) sock).2.thrown.length ≤ 1
    ∧ (getRemoteAddress P os (State.start e) sock).2.thrown.length ≤ 1
    ∧ (getRemotePort P os (State.start e) sock).2.thrown.length ≤ 1
    ∧ (shutdown_input P os (State.start e) sock).thrown.length ≤ 1
    ∧ (shutdown_output P os (State.start e) sock).thrown.length ≤ 1
    ∧ (init P os (State.start e) wsa).2.thrown.length ≤ 1 := by
  refine ⟨?_, ?_, ?_, ?_, ?_, ?_, ?_, ?_, ?_, ?_, ?_, ?_, ?_, ?_, ?_, ?_⟩
  · by_cases hc : (os (.connect sock (make_sockaddr P addr port) sizeof_sockaddr_in)).ret
        = P.SOCKET_ERROR
    · simp [connect_of_error P os _ sock addr port hc, State.start]
    · simp [connect_of_ok P os _ sock addr port hc, State.start]
  · have hsum := connectTimeout_summary P os e sock addr port timeout
    obtain ⟨hnil, hlen⟩ :=
      thrown_of_categories (connectTimeout P os (State.start e) sock addr port timeout).2
    rw [hnil, hlen]
    split_ifs at hsum <;> obtain ⟨hr, hcat⟩ := Prod.mk.inj hsum <;> simp [hr, hcat]
  · by_cases h : P.SOCKET_ERROR = (os (.listen sock backlog)).ret
    · simp [listen, syscall, throwNew, State.start, h]
    · simp [listen, syscall, State.start, h]
  · by_cases h : P.INVALID_SOCKET = (os (.socket P.AF_INET P.SOCK_STREAM P.IPPROTO_TCP)).ret
    · simp [create, syscall, throwNew, State.start, h]
    · simp [create, syscall, State.start, h]
  · by_cases h : P.SOCKET_ERROR
        = (os (.bind sock (make_sockaddr P addr port) sizeof_sockaddr_in)).ret
    · simp [bind, syscall, throwNew, State.start, h]
    · simp [bind, syscall, State.start, h]
  · by_cases h : P.INVALID_SOCKET = (os (.accept sock)).ret
    · simp [accept, syscall, throwNew, State.start, h]
    · simp [accept, syscall, State.start, h]
  · by_cases h : P.SOCKET_ERROR = (os (.send sock buff size 0)).ret
    · simp [send, syscall, throwNew, State.start, h]
    · simp [send, syscall, State.start, h]
  · by_cases h : P.SOCKET_ERROR = (os (.recv sock size (if peek then P.MSG_PEEK else 0))).ret
    · simp [recv, syscall, throwNew, State.start, h]
    · simp [recv, syscall, State.start, h]
  · by_cases h : P.SOCKET_ERROR = (os (.closesocket sock)).ret
    · simp [close, syscall, throwNew, State.start, h]
    · simp [close, syscall, State.start, h]
  · by_cases h : P.SOCKET_ERROR = (os (.getsockname sock)).ret
    · simp [getLocalAddress, syscall, throwNew, State.start, h]
    · simp [getLocalAddress, syscall, State.start, h]
  · by_cases h : P.SOCKET_ERROR = (os (.getsockname sock)).ret
    · simp [getLocalPort, syscall, throwNew, State.start, h]
    · simp [getLocalPort, syscall, State.start, h]
  · by_cases h : P.SOCKET_ERROR = (os (.getpeername sock)).ret
    · simp [getRemoteAddress, syscall, throwNew, State.start, h]
    · simp [getRemoteAddress, syscall, State.start, h]
  · by_cases h : P.SOCKET_ERROR = (os (.getpeername sock)).ret
    · simp [getRemotePort, syscall, throwNew, State.start, h]
    · simp [getRemotePort, syscall, State.start, h]
  · by_cases h : P.SOCKET_ERROR = (os (.shutdown sock P.SD_RECEIVE)).ret
    · by_cases he : (os (.shutdown sock P.SD_RECEIVE)).err = P.WSAENOTCONN
      · simp [shutdown_input, syscall, throwNew, last_socket_error, State.start, h, he]
      · simp [shutdown_input, syscall, throwNew, last_socket_error, State.start, h, he]
    · simp [shutdown_input, syscall, State.start, h]
  · by_cases h : P.SOCKET_ERROR = (os (.shutdown sock P.SD_SEND)).ret
    · by_cases he : (os (.shutdown sock P.SD_SEND)).err = P.WSAENOTCONN
      · simp [shutdown_output, syscall, throwNew, last_socket_error, State.start, h, he]
      · simp [shutdown_output, syscall, throwNew, last_socket_error, State.start, h, he]
    · simp [shutdown_output, syscall, State.start, h]
  · simp only [init, throwNew, syscall, State.start]
    split_ifs <;> simp

end Sockets
